import Mathlib

/-!
Verification of the grounded retrieval engine of the UnifiedBookProject
repository against its specification.  The repository ships the engine
specification, its task documents and the embedding web clients; the backend
implementation itself (chunker, retrieval engine, grounding policy, reindex
manager) is not part of the shipped sources, so those components are modelled
from the specification text, while the web client components are embedded
directly from their JSX/TSX sources.
-/

namespace UnifiedBook

/-! ## Chunker (modelled from the spec, sections 3 and 4.1) -/

/-- Modelled from the spec: the content hash of a slice of document text
(spec section 3, Chunk).  The backend implementation is absent from the
repository sources; a deterministic polynomial hash over the characters
stands in for the content hash function. -/
def contentHash (l : List Char) : Nat :=
l.foldl (fun h c => h * 131 + c.toNat + 1) 7

/-- Hash of a string, used to mix the document identifier into a chunk id. -/
def strHash (s : String) : Nat := contentHash s.toList

/-- Modelled from the spec: chunk_id as a deterministic function of
document_id, slice offset and content hash (spec section 3) and of nothing
else. -/
def chunkId (docId : String) (offset : Nat) (hash : Nat) : Nat :=
(strHash docId * 1000003 + offset) * 1000003 + hash

/-- A source document (spec section 3): identifier, hierarchical labels and
raw text. -/
structure Document where
  document_id : String
  chapter : String
  sectionLabel : String
  text : List Char
deriving Repr, DecidableEq

/-- A chunk (spec section 3): a contiguous slice of a document with a
deterministic id, its ordinal, its offset and the document labels copied
down. -/
structure Chunk where
  chunk_id : Nat
  document_id : String
  ordinal : Nat
  offset : Nat
  text : List Char
  chapter : String
  sectionLabel : String
deriving Repr, DecidableEq

/-- Modelled from the spec: the recursive slicing loop of the Chunker
(spec section 4.1).  Each chunk takes `size` characters starting every
`step` characters, so adjacent chunks overlap by `size - step` characters.
The `fuel` argument bounds the recursion; callers pass the text length,
which suffices whenever `0 < step`. -/
def chunkStep (size step : Nat) (docId chap seclab : String) :
    Nat → Nat → Nat → List Char → List Chunk
  | 0, _, _, _ => []
  | _ + 1, _, _, [] => []
  | fuel + 1, ord, off, c :: rest =>
    { chunk_id := chunkId docId off (contentHash ((c :: rest).take size)),
      document_id := docId, ordinal := ord, offset := off,
      text := (c :: rest).take size,
      chapter := chap, sectionLabel := seclab } ::
    chunkStep size step docId chap seclab fuel (ord + 1) (off + step) ((c :: rest).drop step)

/-- Modelled from the spec: `chunk(document)`, the Chunker contract of spec
section 4.1 — a pure, deterministic, restartable function from a document to
its ordered chunk sequence. -/
def chunkDoc (size step : Nat) (d : Document) : List Chunk :=
chunkStep size step d.document_id d.chapter d.sectionLabel d.text.length 0 0 d.text

/-- The non-overlapping span of a chunk: its first `step` characters, the
part not repeated by the following chunk. -/
def nonOverlapSpan (step : Nat) (c : Chunk) : List Char := c.text.take step

/-- Every chunk id produced by the slicing loop is the deterministic
function `chunkId` of the document id, the chunk offset and the content
hash of the chunk text. -/
theorem chunkStep_id_form (size step : Nat) (docId chap seclab : String) :
    ∀ fuel ord off l c, c ∈ chunkStep size step docId chap seclab fuel ord off l →
      c.chunk_id = chunkId docId c.offset (contentHash c.text) := by
  intro fuel
  induction fuel with
  | zero => intro ord off l c hc; simp [chunkStep] at hc
  | succ n ih =>
    intro ord off l c hc
    cases l with
    | nil => simp [chunkStep] at hc
    | cons x rest =>
      simp only [chunkStep, List.mem_cons] at hc
      rcases hc with hc | hc
      · subst hc; rfl
      · exact ih _ _ _ _ hc

/-- The chunks produced by the slicing loop do not depend on the document
labels, except through the copied-down metadata fields; in particular the
chunk ids depend only on the document id and the text. -/
theorem chunkStep_map_id_labels (size step : Nat) (docId c1 s1 c2 s2 : String) :
    ∀ fuel ord off l,
      (chunkStep size step docId c1 s1 fuel ord off l).map Chunk.chunk_id =
      (chunkStep size step docId c2 s2 fuel ord off l).map Chunk.chunk_id := by
  intro fuel
  induction fuel with
  | zero => intro ord off l; simp [chunkStep]
  | succ n ih =>
    intro ord off l
    cases l with
    | nil => simp [chunkStep]
    | cons x rest => simp only [chunkStep, List.map_cons]; rw [ih]

/-- Concatenating the non-overlapping spans of the chunks gives back the
input text, provided the overlap is smaller than the chunk size. -/
theorem chunkStep_join_spans (size step : Nat) (docId chap seclab : String)
    (hstep : 0 < step) (hss : step ≤ size) :
    ∀ fuel l ord off, l.length ≤ fuel →
      ((chunkStep size step docId chap seclab fuel ord off l).map (nonOverlapSpan step)).flatten = l := by
  intro fuel
  induction fuel with
  | zero =>
    intro l ord off hl
    have : l = [] := List.eq_nil_of_length_eq_zero (Nat.le_zero.mp hl)
    subst this; simp [chunkStep]
  | succ n ih =>
    intro l ord off hl
    cases l with
    | nil => simp [chunkStep]
    | cons x rest =>
      simp only [chunkStep, List.map_cons, List.flatten_cons, nonOverlapSpan]
      have htake : ((x :: rest).take size).take step = (x :: rest).take step := by
        rw [List.take_take, Nat.min_eq_left hss]
      rw [htake]
      have hlen : ((x :: rest).drop step).length ≤ n := by
        simp only [List.length_drop, List.length_cons] at *
        omega
      rw [ih ((x :: rest).drop step) (ord + 1) (off + step) hlen]
      exact List.take_append_drop step (x :: rest)

/-! ## Retrieval Engine (modelled from the spec, section 4.4) -/

/-- A transient per-query retrieval candidate (spec section 3,
RetrievedChunk).  The similarity score is modelled as an integer since the
specification only ever compares scores. -/
structure RetrievedChunk where
  chunk_id : String
  corpus_id : String
  text : String
  score : Int
deriving Repr, DecidableEq

/-- The deterministic retrieval order of spec section 4.4: similarity score
descending, ties broken by ascending chunk_id. -/
def retrLE (a b : RetrievedChunk) : Prop :=
b.score < a.score ∨ (a.score = b.score ∧ a.chunk_id ≤ b.chunk_id)

instance : DecidableRel retrLE := fun a b => by
  unfold retrLE; infer_instance

instance : IsTotal RetrievedChunk retrLE := by
  constructor
  intro a b
  unfold retrLE
  rcases lt_trichotomy a.score b.score with h | h | h
  · exact Or.inr (Or.inl h)
  · rcases le_total a.chunk_id b.chunk_id with h2 | h2
    · exact Or.inl (Or.inr ⟨h, h2⟩)
    · exact Or.inr (Or.inr ⟨h.symm, h2⟩)
  · exact Or.inl (Or.inl h)

instance : IsTrans RetrievedChunk retrLE := by
  constructor
  intro a b c hab hbc
  unfold retrLE at *
  rcases hab with h1 | ⟨h1, h1id⟩
  · rcases hbc with h2 | ⟨h2, _⟩
    · exact Or.inl (lt_trans h2 h1)
    · exact Or.inl (h2 ▸ h1)
  · rcases hbc with h2 | ⟨h2, h2id⟩
    · exact Or.inl (h1 ▸ h2)
    · exact Or.inr ⟨h1.trans h2, le_trans h1id h2id⟩

/-- Modelled from the spec: the corpus filter and relevance floor of spec
section 4.4 — keep only candidates of the queried corpus whose score is at
least the configured floor. -/
def floorFilter (floor : Int) (corpus : String) (cands : List RetrievedChunk) :
    List RetrievedChunk :=
cands.filter (fun c => decide (c.corpus_id = corpus ∧ floor ≤ c.score))

/-- Modelled from the spec: `retrieve(query_text, corpus_id, top_k)` of spec
section 4.4, applied to the candidate list answered by the Vector Index —
filter to the corpus, drop candidates below the relevance floor, sort by
score descending with ties broken by ascending chunk_id, and keep the top
k.  An empty floor-passing set yields the empty sequence, not an error. -/
def retrieve (floor : Int) (corpus : String) (topk : Nat)
    (cands : List RetrievedChunk) : List RetrievedChunk :=
(List.insertionSort retrLE (floorFilter floor corpus cands)).take topk

theorem retrieve_sorted (floor : Int) (corpus : String) (topk : Nat)
    (cands : List RetrievedChunk) :
    List.Sorted retrLE (retrieve floor corpus topk cands) :=
List.Pairwise.sublist (List.take_sublist _ _)
  (List.sorted_insertionSort retrLE (floorFilter floor corpus cands))

theorem retrieve_mem_filter (floor : Int) (corpus : String) (topk : Nat)
    (cands : List RetrievedChunk) :
    ∀ c ∈ retrieve floor corpus topk cands, c.corpus_id = corpus ∧ floor ≤ c.score := by
  intro c hc
  have h1 : c ∈ List.insertionSort retrLE (floorFilter floor corpus cands) :=
    List.mem_of_mem_take hc
  have h2 : c ∈ floorFilter floor corpus cands :=
    (List.mem_insertionSort retrLE).mp h1
  have h3 := List.mem_filter.mp h2
  exact of_decide_eq_true h3.2

/-! ## Grounding Policy and query pipeline (modelled from the spec,
sections 4.5, 6 and 7) -/

/-- Query mode (spec section 3): whole-corpus retrieval or selected-text
pass-through. -/
inductive Mode
  | corpus
  | selection
deriving Repr, DecidableEq

/-- A query (spec section 3). -/
structure Query where
  query_text : String
  corpus_id : String
  mode : Mode
  selected_text : Option String
  session_id : Option String
deriving Repr, DecidableEq

/-- The response body of the query endpoints (spec section 6). -/
structure ChatResponse where
  answer : String
  citations : List String
  is_refusal : Bool
  based_on : Option String
deriving Repr, DecidableEq

/-- Outcome of one query: either a response body or a 5xx-class service
error carrying a fixed message and the underlying failure reason (spec
section 7). -/
inductive QueryOutcome
  | response (r : ChatResponse)
  | serviceError (code : Nat) (message : String) (reason : String)
deriving Repr, DecidableEq

/-- Result of one external call after the bounded retry budget (spec
sections 4.2, 4.3, 4.6): success, or failure past the budget with a
reason (for example a timeout). -/
inductive ExtResult (α : Type)
  | ok (a : α)
  | failed (reason : String)
deriving Repr, DecidableEq

/-- Instrumentation: how many calls each external collaborator received
while processing one query. -/
structure CallCounts where
  embedCalls : Nat
  vectorCalls : Nat
  genCalls : Nat
deriving Repr, DecidableEq

/-- The context constructed by the Grounding Policy (spec section 4.5):
either the literal selected text, or the retrieved chunks. -/
inductive GroundedContext
  | selectionText (t : String)
  | chunks (cs : List RetrievedChunk)
deriving Repr, DecidableEq

/-- Everything observable about one query execution: its outcome, the
external call counts, and the context handed to generation (if any). -/
structure QueryTrace where
  outcome : QueryOutcome
  counts : CallCounts
  contextUsed : Option GroundedContext
deriving Repr, DecidableEq

/-- The canonical refusal string (repository file
src/backend/specs/001-integrated-rag-chatbot/spec.md, FR-006, and the task
document API contract). -/
def refusalAnswer : String := "This information is not available in the book."

/-- Fixed service error message for an embedding failure (spec section 7,
EmbeddingUnavailableError). -/
def embedFailMessage : String := "Embedding service unavailable."

/-- Fixed service error message for a vector index failure (spec section 7,
VectorIndexError). -/
def vectorFailMessage : String := "Vector index unavailable."

/-- Fixed fallback message for a generation failure, distinct from the
refusal string (spec section 7, GenerationUnavailableError). -/
def genFallbackMessage : String := "Generation service unavailable."

/-- Modelled from the spec: the query pipeline of spec sections 4.4 to 4.7
and 7 — the Grounding Policy state machine with the Retrieval Engine and
the three external collaborators, whose post-retry outcomes are passed in
explicitly.  Selection mode never touches the Embedding Client or the
Vector Index; corpus mode embeds, queries the index, applies `retrieve`,
and short-circuits to the canned refusal when no floor-passing chunk
remains, without invoking the Generation Client. -/
def handleQuery (floor : Int) (topk : Nat) (q : Query)
    (embedOutcome : ExtResult (List Int))
    (indexOutcome : ExtResult (List RetrievedChunk))
    (genOutcome : ExtResult String) : QueryTrace :=
match q.mode with
| .selection =>
  let ctx := GroundedContext.selectionText (q.selected_text.getD "")
  match genOutcome with
  | .failed r =>
    { outcome := .serviceError 503 genFallbackMessage r,
      counts := ⟨0, 0, 1⟩, contextUsed := some ctx }
  | .ok ans =>
    { outcome := .response ⟨ans, [], false, some "selected_text"⟩,
      counts := ⟨0, 0, 1⟩, contextUsed := some ctx }
| .corpus =>
  match embedOutcome with
  | .failed r =>
    { outcome := .serviceError 503 embedFailMessage r,
      counts := ⟨1, 0, 0⟩, contextUsed := none }
  | .ok _ =>
    match indexOutcome with
    | .failed r =>
      { outcome := .serviceError 503 vectorFailMessage r,
        counts := ⟨1, 1, 0⟩, contextUsed := none }
    | .ok cands =>
      let result := retrieve floor q.corpus_id topk cands
      if result = [] then
        { outcome := .response ⟨refusalAnswer, [], true, none⟩,
          counts := ⟨1, 1, 0⟩, contextUsed := none }
      else
        match genOutcome with
        | .failed r =>
          { outcome := .serviceError 503 genFallbackMessage r,
            counts := ⟨1, 1, 1⟩, contextUsed := some (.chunks result) }
        | .ok ans =>
          { outcome := .response ⟨ans, result.map RetrievedChunk.chunk_id, false, none⟩,
            counts := ⟨1, 1, 1⟩, contextUsed := some (.chunks result) }

/-- Whether an outcome is a refusal response. -/
def isRefusalOutcome : QueryOutcome → Bool
  | .response r => r.is_refusal
  | .serviceError _ _ _ => false

/-- Modelled from the spec: the bounded retry loop of spec section 9 —
try attempts in order until one succeeds or the budget is exhausted. -/
def retryAux (att : Nat → Option α) : Nat → Nat → ExtResult α
  | _, 0 => .failed "retry budget exhausted"
  | i, remaining + 1 =>
    match att i with
    | some a => .ok a
    | none => retryAux att (i + 1) remaining

/-- Modelled from the spec: a retried external call with a bounded budget
(spec sections 4.2, 4.3, 4.6 and 9). -/
def retryCall (budget : Nat) (att : Nat → Option α) : ExtResult α :=
retryAux att 0 budget

theorem retryAux_all_fail (att : Nat → Option α) (h : ∀ i, att i = none) :
    ∀ remaining i, retryAux att i remaining = .failed "retry budget exhausted" := by
  intro remaining
  induction remaining with
  | zero => intro i; rfl
  | succ n ih => intro i; simp only [retryAux, h i]; exact ih (i + 1)

/-! ## Reindex Manager (modelled from the spec, section 4.7) -/

/-- The chunk identity the Corpus Store remembers: chunk id and the content
hash of the chunk text (spec sections 4.7 and 6). -/
structure StoredChunk where
  chunk_id : Nat
  content_hash : Nat
deriving Repr, DecidableEq

/-- The report returned by `reindex` (spec section 4.7). -/
structure ReindexReport where
  added : Nat
  updated : Nat
  unchanged : Nat
  removed : Nat
deriving Repr, DecidableEq

/-- Everything observable about one reindex run: the report, the Corpus
Store content after the run, and the external call counts. -/
structure ReindexRun where
  report : ReindexReport
  store : List StoredChunk
  embedCalls : Nat
  vectorCalls : Nat
deriving Repr, DecidableEq

/-- Lookup of the last-known content hash for a chunk id in the Corpus
Store. -/
def lookupHash (id : Nat) : List StoredChunk → Option Nat
  | [] => none
  | s :: rest => if s.chunk_id = id then some s.content_hash else lookupHash id rest

/-- A new chunk is `added` when its id is not in the store. -/
def isAdded (store : List StoredChunk) (c : StoredChunk) : Bool :=
(lookupHash c.chunk_id store).isNone

/-- A new chunk is `unchanged` when the store holds the same hash for its
id; it is then skipped with no Embedding Client call and no Vector Index
call. -/
def isUnchanged (store : List StoredChunk) (c : StoredChunk) : Bool :=
lookupHash c.chunk_id store == some c.content_hash

/-- A new chunk is `updated` when the store holds a different hash for its
id. -/
def isUpdated (store : List StoredChunk) (c : StoredChunk) : Bool :=
match lookupHash c.chunk_id store with
| none => false
| some h => h != c.content_hash

/-- A stored chunk is removed when no new chunk carries its id. -/
def isRemoved (chunks : List StoredChunk) (s : StoredChunk) : Bool :=
!(chunks.any (fun c => c.chunk_id == s.chunk_id))

/-- Modelled from the spec: `reindex(corpus_id, documents)` of spec section
4.7, after chunking and hashing — compare each new chunk hash with the last
known hash in the Corpus Store; unchanged chunks are skipped (no Embedding
Client call, no Vector Index call), added and updated chunks are embedded
and upserted (one embed call and one upsert each), and stale store entries
are deleted (one Vector Index delete each).  The store is left holding
exactly the new chunk set. -/
def reindex (store chunks : List StoredChunk) : ReindexRun :=
let a := (chunks.filter (isAdded store)).length
let u := (chunks.filter (isUpdated store)).length
let n := (chunks.filter (isUnchanged store)).length
let r := (store.filter (isRemoved chunks)).length
{ report := ⟨a, u, n, r⟩,
  store := chunks,
  embedCalls := a + u,
  vectorCalls := a + u + r }

theorem lookupHash_self (chunks : List StoredChunk)
    (hnodup : (chunks.map StoredChunk.chunk_id).Nodup) :
    ∀ c ∈ chunks, lookupHash c.chunk_id chunks = some c.content_hash := by
  induction chunks with
  | nil => intro c hc; simp at hc
  | cons x rest ih =>
    intro c hc
    simp only [List.map_cons, List.nodup_cons] at hnodup
    rcases List.mem_cons.mp hc with rfl | hc
    · simp [lookupHash]
    · have hne : x.chunk_id ≠ c.chunk_id := by
        intro h
        exact hnodup.1 (h ▸ List.mem_map_of_mem StoredChunk.chunk_id hc)
      simp only [lookupHash, if_neg hne]
      exact ih hnodup.2 c hc

/-! ## Web client components (embedded from the repository sources) -/

/-- JavaScript string trim, as used by the chat components, over the
whitespace characters that occur in practice. -/
def isJsSpace (c : Char) : Bool :=
c = ' ' ∨ c = '\t' ∨ c = '\n' ∨ c = '\r'

/-- JavaScript `s.trim()`. -/
def jsTrim (s : String) : String :=
String.mk (((s.toList.dropWhile isJsSpace).reverse.dropWhile isJsSpace).reverse)

/-- JavaScript truthiness of a nullable string: null and the empty string
are falsy. -/
def jsTruthy : Option String → Bool
  | none => false
  | some s => s ≠ ""

/-- Embedded from
src/spec-kit/my-website/src/components/Chatbot/SmartChatInterface.jsx,
lines 14 to 23 (`getSelectedText`): read the page selection, return the
trimmed text when it is nonempty and null otherwise. -/
def getSelectedText (selection : Option String) : Option String :=
match selection with
| none => none
| some s =>
  if jsTrim s ≠ "" then
    (if (jsTrim s).length > 0 then some (jsTrim s) else none)
  else none

/-- Embedded from SmartChatInterface.jsx, lines 26 to 35
(`handleSelectionChange`): the `selectedText` state after a selection
change event with the given page selection. -/
def selectedTextState (selection : Option String) : Option String :=
match getSelectedText selection with
| some t => some t
| none => none

/-- The props SmartChatInterface passes to the child ChatInterface
(SmartChatInterface.jsx, lines 66 to 74). -/
structure ChildProps where
  contextType : String
  selectedText : Option String
deriving Repr, DecidableEq

/-- Embedded from SmartChatInterface.jsx, line 66 and lines 70 to 74: the
effective context is the string selected_text when the stored selection is
truthy, otherwise the contextType prop, and the stored selection is passed
to the child unchanged. -/
def smartChildProps (selectedText : Option String) (contextType : String) :
    ChildProps :=
{ contextType := if jsTruthy selectedText then "selected_text" else contextType,
  selectedText := selectedText }

/-- The component state consulted by the WebSocket chat message builder. -/
structure WsMsgState where
  inputValue : String
  currentContext : String
  displayedSelectedText : Option String
deriving Repr, DecidableEq

/-- The chat message payload sent over the WebSocket. -/
structure WsMessageData where
  type : String
  query : String
  context_type : String
  selected_text : Option String
deriving Repr, DecidableEq

/-- Embedded from
src/spec-kit/my-website/src/components/Chatbot/WebSocketChatInterface.jsx,
lines 208 to 214: the `messageData` object built by `handleSubmit` —
selected_text is the displayed selected text when the current context is
selected_text and null otherwise. -/
def wsMessageData (st : WsMsgState) : WsMessageData :=
{ type := "chat_message",
  query := st.inputValue,
  context_type := st.currentContext,
  selected_text :=
    if st.currentContext = "selected_text" then st.displayedSelectedText else none }

/-- The fixed session id of the embedded chat client
(src/my-website/src/components/RAGChat/ChatWidget.tsx, line 258). -/
def SESSION_ID : String := "frontend-session"

/-- An HTTP request as issued by the embedded chat client: URL, method and
the JSON body fields in order. -/
structure HttpRequest where
  url : String
  method : String
  bodyFields : List (String × String)
deriving Repr, DecidableEq

/-- Whether a request body carries a field of the given name. -/
def hasField (k : String) (r : HttpRequest) : Bool :=
r.bodyFields.any (fun p => p.1 == k)

/-- Embedded from ChatWidget.tsx, lines 294 to 304: the request the
embedded chat client issues for a full-corpus query — a POST to the chat
route with query_text and the fixed session id as the only body fields. -/
def chatRequest (inputValue : String) : HttpRequest :=
{ url := "http://127.0.0.1:8000/api/routes/chat",
  method := "POST",
  bodyFields := [("query_text", inputValue), ("session_id", SESSION_ID)] }

/-- The fallback text the embedded chat client shows when the request
fails (ChatWidget.tsx, line 327). -/
def clientErrorMessage : String :=
"Sorry, I encountered an error processing your request."

/-- Embedded from ChatWidget.tsx, lines 310 to 330: the assistant message
text appended after a fetch — the answer (or a default) on success, the
fallback text on any error. -/
def chatWidgetAssistantText (result : Except Nat ChatResponse) : String :=
match result with
| .error _ => clientErrorMessage
| .ok d => if d.answer = "" then "No answer available." else d.answer

/-! ## Identifier scoping of WebSocketChatInterface.handleSubmit
(embedded from WebSocketChatInterface.jsx) -/

/-- A statement of the `handleSubmit` body, reduced to the identifiers it
reads: a const declaration binding a new name, a plain expression
statement, or the WebSocket send call. -/
inductive JsStmt
  | constDecl (name : String) (refs : List String)
  | exprStmt (refs : List String)
  | send (refs : List String)
deriving Repr, DecidableEq

/-- Result of running a statement list: the thrown error (if any) and how
many WebSocket sends executed before it. -/
structure JsRun where
  thrown : Option String
  sends : Nat
deriving Repr, DecidableEq

/-- Evaluation of a statement list under a scope of defined identifiers:
reading an identifier that is not in scope throws a ReferenceError and
aborts; a const declaration extends the scope; a send call counts one
WebSocket send. -/
def runStmts (env : List String) : List JsStmt → Nat → JsRun
  | [], sends => ⟨none, sends⟩
  | .constDecl n refs :: rest, sends =>
    match refs.find? (fun r => !(env.contains r)) with
    | some r => ⟨some ("ReferenceError: " ++ r ++ " is not defined"), sends⟩
    | none => runStmts (n :: env) rest sends
  | .exprStmt refs :: rest, sends =>
    match refs.find? (fun r => !(env.contains r)) with
    | some r => ⟨some ("ReferenceError: " ++ r ++ " is not defined"), sends⟩
    | none => runStmts env rest sends
  | .send refs :: rest, sends =>
    match refs.find? (fun r => !(env.contains r)) with
    | some r => ⟨some ("ReferenceError: " ++ r ++ " is not defined"), sends⟩
    | none => runStmts env rest (sends + 1)

/-- Browser globals referenced by the component. -/
def wsGlobals : List String :=
["Date", "JSON", "localStorage", "console", "window", "Math", "WebSocket",
 "setTimeout", "clearTimeout", "document"]

/-- The identifiers in scope inside the WebSocketChatInterface component
body (WebSocketChatInterface.jsx, lines 7 to 19 for the props, state and
refs, and lines 55, 160, 172, 177, 186, 241, 248, 256 and 266 for the
component-level consts).  Note that `prev` is not among them: it is bound
only as the parameter of the arrow functions passed to setMessages
elsewhere in the file. -/
def wsComponentScope : List String :=
["contextType", "selectedText", "chapterTitle",
 "messages", "setMessages", "inputValue", "setInputValue",
 "isLoading", "setIsLoading", "currentContext", "setCurrentContext",
 "displayedSelectedText", "setDisplayedSelectedText",
 "wsConnected", "setWsConnected", "wsConnecting", "setWsConnecting",
 "sessionId", "setSessionId",
 "messagesEndRef", "inputRef", "wsRef", "reconnectTimeoutRef",
 "connectWebSocket", "disconnectWebSocket", "scrollToBottom",
 "switchContext", "handleSubmit", "handleKeyDown", "clearChatHistory",
 "getContextDisplay", "connectionStatus"]

/-- Embedded from WebSocketChatInterface.jsx, lines 191 to 217: the
statements of `handleSubmit` after its guard, each with the identifiers it
reads.  Line 198 reads `prev` when building `newMessages`. -/
def wsHandleSubmitBody : List JsStmt :=
[.constDecl "userMessage" ["Date", "inputValue"],
 .constDecl "newMessages" ["prev", "userMessage"],
 .exprStmt ["setMessages", "newMessages"],
 .exprStmt ["sessionId", "localStorage", "JSON", "newMessages"],
 .exprStmt ["setInputValue"],
 .exprStmt ["setIsLoading"],
 .constDecl "messageData" ["inputValue", "currentContext",
   "displayedSelectedText", "localStorage"],
 .send ["wsRef", "JSON", "messageData"]]

/-- The component state consulted by the `handleSubmit` guard. -/
structure WsSubmitState where
  inputValue : String
  isLoading : Bool
  wsConnected : Bool
deriving Repr, DecidableEq

/-- Embedded from WebSocketChatInterface.jsx, lines 186 to 217:
`handleSubmit` — the guard of line 188 returns early on empty trimmed
input, while loading, or while disconnected; otherwise the body statements
run under the scope of the submit handler (its parameter `e`, the
component scope and the browser globals). -/
def wsHandleSubmitRun (st : WsSubmitState) : JsRun :=
if jsTrim st.inputValue = "" ∨ st.isLoading = true ∨ st.wsConnected = false then
  ⟨none, 0⟩
else
  runStmts ("e" :: wsComponentScope ++ wsGlobals) wsHandleSubmitBody 0

/-! ## Claim theorems -/

/-- Claim C3: chunking is deterministic — chunking a document twice yields
byte-identical chunk sequences, each chunk_id is the deterministic function
`chunkId` of document_id, slice offset and content hash, and re-ingesting
identical content (same document id and text, labels free to differ)
yields identical chunk ids. -/
theorem chunking_deterministic (size step : Nat) (d d1 d2 : Document) (c : Chunk)
    (hid : d1.document_id = d2.document_id) (htext : d1.text = d2.text)
    (hc : c ∈ chunkDoc size step d) :
    chunkDoc size step d = chunkDoc size step d
    ∧ (chunkDoc size step d1).map Chunk.chunk_id = (chunkDoc size step d2).map Chunk.chunk_id
    ∧ c.chunk_id = chunkId d.document_id c.offset (contentHash c.text) := by
  refine ⟨rfl, ?_, chunkStep_id_form size step d.document_id d.chapter d.sectionLabel _ _ _ _ c hc⟩
  unfold chunkDoc
  rw [hid, htext]
  exact chunkStep_map_id_labels size step d2.document_id d1.chapter d1.sectionLabel
    d2.chapter d2.sectionLabel d2.text.length 0 0 d2.text

/-- Witness for C3 at a concrete document, with the two re-ingested
documents differing only in their labels. -/
theorem chunking_deterministic_witness :
    (⟨"d1", "ch", "s", "hello world".toList⟩ : Document).document_id =
      (⟨"d1", "ch2", "s2", "hello world".toList⟩ : Document).document_id
    ∧ (⟨"d1", "ch", "s", "hello world".toList⟩ : Document).text =
      (⟨"d1", "ch2", "s2", "hello world".toList⟩ : Document).text
    ∧ (⟨chunkId "d1" 0 (contentHash "hello".toList), "d1", 0, 0, "hello".toList, "ch", "s"⟩ : Chunk)
        ∈ chunkDoc 5 3 ⟨"d1", "ch", "s", "hello world".toList⟩
    ∧ (chunkDoc 5 3 ⟨"d1", "ch", "s", "hello world".toList⟩ =
        chunkDoc 5 3 ⟨"d1", "ch", "s", "hello world".toList⟩
      ∧ (chunkDoc 5 3 ⟨"d1", "ch", "s", "hello world".toList⟩).map Chunk.chunk_id =
        (chunkDoc 5 3 ⟨"d1", "ch2", "s2", "hello world".toList⟩).map Chunk.chunk_id
      ∧ (⟨chunkId "d1" 0 (contentHash "hello".toList), "d1", 0, 0, "hello".toList, "ch", "s"⟩ : Chunk).chunk_id =
          chunkId "d1" 0
            (contentHash (⟨chunkId "d1" 0 (contentHash "hello".toList), "d1", 0, 0, "hello".toList, "ch", "s"⟩ : Chunk).text)) :=
  ⟨rfl, rfl, by decide,
   chunking_deterministic 5 3 ⟨"d1", "ch", "s", "hello world".toList⟩
     ⟨"d1", "ch", "s", "hello world".toList⟩ ⟨"d1", "ch2", "s2", "hello world".toList⟩
     ⟨chunkId "d1" 0 (contentHash "hello".toList), "d1", 0, 0, "hello".toList, "ch", "s"⟩
     rfl rfl (by decide)⟩

/-- Claim C6: chunking loses no content — concatenating the chunks in their
non-overlapping spans reproduces the document text exactly, whenever the
step is positive and no larger than the chunk size. -/
theorem chunking_content_loss_free (size step : Nat) (d : Document)
    (h1 : 0 < step) (h2 : step ≤ size) :
    ((chunkDoc size step d).map (nonOverlapSpan step)).flatten = d.text :=
chunkStep_join_spans size step d.document_id d.chapter d.sectionLabel h1 h2
  d.text.length d.text 0 0 (le_refl _)

/-- Witness for C6 at a concrete document. -/
theorem chunking_content_loss_free_witness :
    0 < 3 ∧ 3 ≤ 5
    ∧ ((chunkDoc 5 3 ⟨"d1", "ch", "s", "hello world".toList⟩).map (nonOverlapSpan 3)).flatten =
        (⟨"d1", "ch", "s", "hello world".toList⟩ : Document).text :=
  ⟨by decide, by decide,
   chunking_content_loss_free 5 3 ⟨"d1", "ch", "s", "hello world".toList⟩ (by decide) (by decide)⟩

/-- Claim C5: `retrieve` returns candidates of the queried corpus sorted by
score descending with ties broken by ascending chunk_id, drops every
candidate below the relevance floor, returns the empty sequence (not an
error) when the floor-passing set is empty, and is deterministic across
repeated calls. -/
theorem retrieve_ordering_floor (floor : Int) (corpus : String) (topk : Nat)
    (cands : List RetrievedChunk) :
    List.Sorted retrLE (retrieve floor corpus topk cands)
    ∧ (∀ c ∈ retrieve floor corpus topk cands, c.corpus_id = corpus ∧ floor ≤ c.score)
    ∧ (floorFilter floor corpus cands = [] → retrieve floor corpus topk cands = [])
    ∧ retrieve floor corpus topk cands = retrieve floor corpus topk cands := by
  refine ⟨retrieve_sorted floor corpus topk cands, retrieve_mem_filter floor corpus topk cands, ?_, rfl⟩
  intro hempty
  unfold retrieve
  rw [hempty]
  simp [List.insertionSort]

/-- Witness for C5 at a concrete candidate list with a score tie and an
off-corpus and a below-floor candidate. -/
theorem retrieve_ordering_floor_witness :
    List.Sorted retrLE (retrieve 0 "c" 3
        [⟨"b", "c", "t", 5⟩, ⟨"a", "c", "t", 5⟩, ⟨"z", "c", "t", 9⟩, ⟨"w", "c", "t", -2⟩, ⟨"q", "other", "t", 50⟩])
    ∧ (∀ c ∈ retrieve 0 "c" 3
        [⟨"b", "c", "t", 5⟩, ⟨"a", "c", "t", 5⟩, ⟨"z", "c", "t", 9⟩, ⟨"w", "c", "t", -2⟩, ⟨"q", "other", "t", 50⟩],
        c.corpus_id = "c" ∧ 0 ≤ c.score)
    ∧ (floorFilter 0 "c"
        [⟨"b", "c", "t", 5⟩, ⟨"a", "c", "t", 5⟩, ⟨"z", "c", "t", 9⟩, ⟨"w", "c", "t", -2⟩, ⟨"q", "other", "t", 50⟩] = [] →
        retrieve 0 "c" 3
          [⟨"b", "c", "t", 5⟩, ⟨"a", "c", "t", 5⟩, ⟨"z", "c", "t", 9⟩, ⟨"w", "c", "t", -2⟩, ⟨"q", "other", "t", 50⟩] = [])
    ∧ retrieve 0 "c" 3
        [⟨"b", "c", "t", 5⟩, ⟨"a", "c", "t", 5⟩, ⟨"z", "c", "t", 9⟩, ⟨"w", "c", "t", -2⟩, ⟨"q", "other", "t", 50⟩] =
      retrieve 0 "c" 3
        [⟨"b", "c", "t", 5⟩, ⟨"a", "c", "t", 5⟩, ⟨"z", "c", "t", 9⟩, ⟨"w", "c", "t", -2⟩, ⟨"q", "other", "t", 50⟩] :=
  retrieve_ordering_floor 0 "c" 3
    [⟨"b", "c", "t", 5⟩, ⟨"a", "c", "t", 5⟩, ⟨"z", "c", "t", 9⟩, ⟨"w", "c", "t", -2⟩, ⟨"q", "other", "t", 50⟩]

/-- Claim C4: reindex is idempotent — running reindex a second time on
unchanged content (chunk ids pairwise distinct) yields a report with
added = 0, updated = 0, removed = 0 and makes zero Embedding Client calls
and zero Vector Index calls on the second run. -/
theorem reindex_idempotent (store chunks : List StoredChunk)
    (hnodup : (chunks.map StoredChunk.chunk_id).Nodup) :
    (reindex (reindex store chunks).store chunks).report.added = 0
    ∧ (reindex (reindex store chunks).store chunks).report.updated = 0
    ∧ (reindex (reindex store chunks).store chunks).report.removed = 0
    ∧ (reindex (reindex store chunks).store chunks).embedCalls = 0
    ∧ (reindex (reindex store chunks).store chunks).vectorCalls = 0 := by
  have hstore : (reindex store chunks).store = chunks := rfl
  rw [hstore]
  have hadd : chunks.filter (isAdded chunks) = [] := by
    rw [List.filter_eq_nil_iff]
    intro c hc
    simp [isAdded, lookupHash_self chunks hnodup c hc]
  have hupd : chunks.filter (isUpdated chunks) = [] := by
    rw [List.filter_eq_nil_iff]
    intro c hc
    simp [isUpdated, lookupHash_self chunks hnodup c hc]
  have hrem : chunks.filter (isRemoved chunks) = [] := by
    rw [List.filter_eq_nil_iff]
    intro c hc
    have hany : chunks.any (fun c2 => c2.chunk_id == c.chunk_id) = true := by
      rw [List.any_eq_true]
      exact ⟨c, hc, by simp⟩
    simp [isRemoved, hany]
  simp [reindex, hadd, hupd, hrem]

/-- Witness for C4 at a concrete two-chunk corpus. -/
theorem reindex_idempotent_witness :
    (([⟨1, 10⟩, ⟨2, 20⟩] : List StoredChunk).map StoredChunk.chunk_id).Nodup
    ∧ ((reindex (reindex [] [⟨1, 10⟩, ⟨2, 20⟩]).store [⟨1, 10⟩, ⟨2, 20⟩]).report.added = 0
      ∧ (reindex (reindex [] [⟨1, 10⟩, ⟨2, 20⟩]).store [⟨1, 10⟩, ⟨2, 20⟩]).report.updated = 0
      ∧ (reindex (reindex [] [⟨1, 10⟩, ⟨2, 20⟩]).store [⟨1, 10⟩, ⟨2, 20⟩]).report.removed = 0
      ∧ (reindex (reindex [] [⟨1, 10⟩, ⟨2, 20⟩]).store [⟨1, 10⟩, ⟨2, 20⟩]).embedCalls = 0
      ∧ (reindex (reindex [] [⟨1, 10⟩, ⟨2, 20⟩]).store [⟨1, 10⟩, ⟨2, 20⟩]).vectorCalls = 0) :=
  ⟨by decide, reindex_idempotent [] [⟨1, 10⟩, ⟨2, 20⟩] (by decide)⟩

/-- Claim C2: a corpus-mode query whose retrieval returns zero
floor-passing chunks never invokes the Generation Client and returns the
canonical refusal — is_refusal true, the fixed refusal string, empty
citations. -/
theorem refusal_determinism (floor : Int) (topk : Nat) (q : Query)
    (v : List Int) (cands : List RetrievedChunk) (genOutcome : ExtResult String)
    (hmode : q.mode = .corpus)
    (hempty : retrieve floor q.corpus_id topk cands = []) :
    (handleQuery floor topk q (.ok v) (.ok cands) genOutcome).counts.genCalls = 0
    ∧ (handleQuery floor topk q (.ok v) (.ok cands) genOutcome).outcome =
        .response ⟨"This information is not available in the book.", [], true, none⟩ := by
  constructor <;> simp [handleQuery, hmode, hempty, refusalAnswer]

/-- Witness for C2 at a concrete corpus-mode query whose candidate set is
empty, with a Generation Client outcome standing ready but unused. -/
theorem refusal_determinism_witness :
    (⟨"What is X?", "book1", .corpus, none, none⟩ : Query).mode = Mode.corpus
    ∧ retrieve 0 (⟨"What is X?", "book1", .corpus, none, none⟩ : Query).corpus_id 5 [] = []
    ∧ ((handleQuery 0 5 ⟨"What is X?", "book1", .corpus, none, none⟩ (.ok [1]) (.ok []) (.ok "spurious")).counts.genCalls = 0
      ∧ (handleQuery 0 5 ⟨"What is X?", "book1", .corpus, none, none⟩ (.ok [1]) (.ok []) (.ok "spurious")).outcome =
          .response ⟨"This information is not available in the book.", [], true, none⟩) :=
  ⟨rfl, rfl,
   refusal_determinism 0 5 ⟨"What is X?", "book1", .corpus, none, none⟩ [1] [] (.ok "spurious") rfl rfl⟩

/-- Claim C1: for every selection-mode query the Vector Index receives zero
calls (and the Embedding Client none either), the context handed to the
Grounding Policy and on to generation is exactly the literal selected text,
the response is based on selected text with no corpus citations, and the
client components attach the selected text exactly when the selected-text
context is active — the WebSocket message carries the displayed selected
text iff the current context is selected_text, and SmartChatInterface
passes a truthy selection to the child verbatim with the selected_text
context. -/
theorem selection_isolation (floor : Int) (topk : Nat) (q : Query)
    (embedOutcome : ExtResult (List Int)) (indexOutcome : ExtResult (List RetrievedChunk))
    (genOutcome : ExtResult String) (s : String)
    (st : WsMsgState) (sel : Option String) (ct : String)
    (hmode : q.mode = .selection) (hsel : q.selected_text = some s) :
    (handleQuery floor topk q embedOutcome indexOutcome genOutcome).counts.vectorCalls = 0
    ∧ (handleQuery floor topk q embedOutcome indexOutcome genOutcome).counts.embedCalls = 0
    ∧ (handleQuery floor topk q embedOutcome indexOutcome genOutcome).contextUsed =
        some (.selectionText s)
    ∧ (∀ resp, (handleQuery floor topk q embedOutcome indexOutcome genOutcome).outcome =
          .response resp → resp.based_on = some "selected_text" ∧ resp.citations = [])
    ∧ (wsMessageData st).selected_text =
        (if st.currentContext = "selected_text" then st.displayedSelectedText else none)
    ∧ ((wsMessageData st).selected_text ≠ none → st.currentContext = "selected_text")
    ∧ (jsTruthy sel = true →
        (smartChildProps sel ct).contextType = "selected_text"
        ∧ (smartChildProps sel ct).selectedText = sel) := by
  refine ⟨?_, ?_, ?_, ?_, rfl, ?_, ?_⟩
  · cases genOutcome <;> simp [handleQuery, hmode]
  · cases genOutcome <;> simp [handleQuery, hmode]
  · cases genOutcome <;> simp [handleQuery, hmode, hsel]
  · intro resp hresp
    cases genOutcome <;> simp [handleQuery, hmode] at hresp
    rw [← hresp]
    exact ⟨rfl, rfl⟩
  · intro hne
    by_contra hctx
    simp [wsMessageData, hctx] at hne
  · intro htruthy
    exact ⟨by simp [smartChildProps, htruthy], rfl⟩

/-- Witness for C1 at a concrete selection-mode query, with both external
retrieval services primed to fail so that any call to them would surface,
and concrete client states. -/
theorem selection_isolation_witness :
    (⟨"What causes Y?", "book1", .selection, some "X causes Y", none⟩ : Query).mode = Mode.selection
    ∧ (⟨"What causes Y?", "book1", .selection, some "X causes Y", none⟩ : Query).selected_text =
        some "X causes Y"
    ∧ ((handleQuery 0 5 ⟨"What causes Y?", "book1", .selection, some "X causes Y", none⟩
          (.failed "index mocked to throw") (.failed "index mocked to throw") (.ok "X")).counts.vectorCalls = 0
      ∧ (handleQuery 0 5 ⟨"What causes Y?", "book1", .selection, some "X causes Y", none⟩
          (.failed "index mocked to throw") (.failed "index mocked to throw") (.ok "X")).counts.embedCalls = 0
      ∧ (handleQuery 0 5 ⟨"What causes Y?", "book1", .selection, some "X causes Y", none⟩
          (.failed "index mocked to throw") (.failed "index mocked to throw") (.ok "X")).contextUsed =
          some (.selectionText "X causes Y")
      ∧ (∀ resp, (handleQuery 0 5 ⟨"What causes Y?", "book1", .selection, some "X causes Y", none⟩
            (.failed "index mocked to throw") (.failed "index mocked to throw") (.ok "X")).outcome =
            .response resp → resp.based_on = some "selected_text" ∧ resp.citations = [])
      ∧ (wsMessageData ⟨"q", "selected_text", some "X causes Y"⟩).selected_text =
          (if (⟨"q", "selected_text", some "X causes Y"⟩ : WsMsgState).currentContext = "selected_text"
           then (⟨"q", "selected_text", some "X causes Y"⟩ : WsMsgState).displayedSelectedText else none)
      ∧ ((wsMessageData ⟨"q", "selected_text", some "X causes Y"⟩).selected_text ≠ none →
          (⟨"q", "selected_text", some "X causes Y"⟩ : WsMsgState).currentContext = "selected_text")
      ∧ (jsTruthy (some "X causes Y") = true →
          (smartChildProps (some "X causes Y") "full_book").contextType = "selected_text"
          ∧ (smartChildProps (some "X causes Y") "full_book").selectedText = some "X causes Y")) :=
  ⟨rfl, rfl,
   selection_isolation 0 5 ⟨"What causes Y?", "book1", .selection, some "X causes Y", none⟩
     (.failed "index mocked to throw") (.failed "index mocked to throw") (.ok "X") "X causes Y"
     ⟨"q", "selected_text", some "X causes Y"⟩ (some "X causes Y") "full_book" rfl rfl⟩

/-- Claim C7: external-service failures are never conflated with refusals —
an embedding, vector-index (including a retrieval timeout) or generation
failure past the retry budget surfaces as a 503 service error with a fixed
message distinct from the refusal string, never as an is_refusal response;
an exhausted retry budget yields a failure; and the embedded chat client
shows a fallback message distinct from the refusal on any request error. -/
theorem service_error_not_refusal (floor : Int) (topk : Nat) (q q2 : Query)
    (indexOutcome : ExtResult (List RetrievedChunk)) (genOutcome : ExtResult String)
    (eo2 : ExtResult (List Int)) (io2 : ExtResult (List RetrievedChunk))
    (v : List Int) (cs : List RetrievedChunk)
    (r1 r2 r3 r4 : String) (budget httpCode : Nat) (att : Nat → Option (List Int))
    (hmode : q.mode = .corpus) (hmode2 : q2.mode = .selection)
    (hne : retrieve floor q.corpus_id topk cs ≠ [])
    (hatt : ∀ i, att i = none) :
    (handleQuery floor topk q (.failed r1) indexOutcome genOutcome).outcome =
        .serviceError 503 embedFailMessage r1
    ∧ isRefusalOutcome (handleQuery floor topk q (.failed r1) indexOutcome genOutcome).outcome = false
    ∧ (handleQuery floor topk q (.ok v) (.failed r2) genOutcome).outcome =
        .serviceError 503 vectorFailMessage r2
    ∧ isRefusalOutcome (handleQuery floor topk q (.ok v) (.failed r2) genOutcome).outcome = false
    ∧ (handleQuery floor topk q (.ok v) (.ok cs) (.failed r3)).outcome =
        .serviceError 503 genFallbackMessage r3
    ∧ isRefusalOutcome (handleQuery floor topk q (.ok v) (.ok cs) (.failed r3)).outcome = false
    ∧ (handleQuery floor topk q2 eo2 io2 (.failed r4)).outcome =
        .serviceError 503 genFallbackMessage r4
    ∧ isRefusalOutcome (handleQuery floor topk q2 eo2 io2 (.failed r4)).outcome = false
    ∧ embedFailMessage ≠ refusalAnswer
    ∧ vectorFailMessage ≠ refusalAnswer
    ∧ genFallbackMessage ≠ refusalAnswer
    ∧ retryCall budget att = .failed "retry budget exhausted"
    ∧ chatWidgetAssistantText (.error httpCode) = clientErrorMessage
    ∧ clientErrorMessage ≠ refusalAnswer := by
  refine ⟨?_, ?_, ?_, ?_, ?_, ?_, ?_, ?_, by decide, by decide, by decide,
    retryAux_all_fail att hatt budget 0, rfl, by decide⟩
  · simp [handleQuery, hmode]
  · simp [handleQuery, hmode, isRefusalOutcome]
  · simp [handleQuery, hmode]
  · simp [handleQuery, hmode, isRefusalOutcome]
  · simp [handleQuery, hmode, hne]
  · simp [handleQuery, hmode, hne, isRefusalOutcome]
  · simp [handleQuery, hmode2]
  · simp [handleQuery, hmode2, isRefusalOutcome]

/-- Witness for C7: concrete corpus-mode and selection-mode queries, a
nonempty retrieved candidate set, a vector failure whose reason is a
timeout, an all-failing retry attempt function, and a concrete HTTP error
code. -/
theorem service_error_not_refusal_witness :
    (⟨"q", "book1", .corpus, none, none⟩ : Query).mode = Mode.corpus
    ∧ (⟨"q2", "book1", .selection, some "sel", none⟩ : Query).mode = Mode.selection
    ∧ retrieve 0 (⟨"q", "book1", .corpus, none, none⟩ : Query).corpus_id 5 [⟨"a", "book1", "t", 4⟩] ≠ []
    ∧ (∀ i : Nat, (fun _ : Nat => (none : Option (List Int))) i = none)
    ∧ ((handleQuery 0 5 ⟨"q", "book1", .corpus, none, none⟩ (.failed "embed down")
          (.ok [⟨"a", "book1", "t", 4⟩]) (.ok "ans")).outcome =
        .serviceError 503 embedFailMessage "embed down"
      ∧ isRefusalOutcome (handleQuery 0 5 ⟨"q", "book1", .corpus, none, none⟩ (.failed "embed down")
          (.ok [⟨"a", "book1", "t", 4⟩]) (.ok "ans")).outcome = false
      ∧ (handleQuery 0 5 ⟨"q", "book1", .corpus, none, none⟩ (.ok [1]) (.failed "timeout")
          (.ok "ans")).outcome = .serviceError 503 vectorFailMessage "timeout"
      ∧ isRefusalOutcome (handleQuery 0 5 ⟨"q", "book1", .corpus, none, none⟩ (.ok [1])
          (.failed "timeout") (.ok "ans")).outcome = false
      ∧ (handleQuery 0 5 ⟨"q", "book1", .corpus, none, none⟩ (.ok [1])
          (.ok [⟨"a", "book1", "t", 4⟩]) (.failed "gen down")).outcome =
          .serviceError 503 genFallbackMessage "gen down"
      ∧ isRefusalOutcome (handleQuery 0 5 ⟨"q", "book1", .corpus, none, none⟩ (.ok [1])
          (.ok [⟨"a", "book1", "t", 4⟩]) (.failed "gen down")).outcome = false
      ∧ (handleQuery 0 5 ⟨"q2", "book1", .selection, some "sel", none⟩ (.ok [1]) (.ok [])
          (.failed "gen down")).outcome = .serviceError 503 genFallbackMessage "gen down"
      ∧ isRefusalOutcome (handleQuery 0 5 ⟨"q2", "book1", .selection, some "sel", none⟩ (.ok [1])
          (.ok []) (.failed "gen down")).outcome = false
      ∧ embedFailMessage ≠ refusalAnswer
      ∧ vectorFailMessage ≠ refusalAnswer
      ∧ genFallbackMessage ≠ refusalAnswer
      ∧ retryCall 3 (fun _ : Nat => (none : Option (List Int))) = .failed "retry budget exhausted"
      ∧ chatWidgetAssistantText (.error 500) = clientErrorMessage
      ∧ clientErrorMessage ≠ refusalAnswer) :=
  ⟨rfl, rfl, by decide, fun _ => rfl,
   service_error_not_refusal 0 5 ⟨"q", "book1", .corpus, none, none⟩
     ⟨"q2", "book1", .selection, some "sel", none⟩
     (.ok [⟨"a", "book1", "t", 4⟩]) (.ok "ans") (.ok [1]) (.ok [])
     [1] [⟨"a", "book1", "t", 4⟩] "embed down" "timeout" "gen down" "gen down" 3 500
     (fun _ => none) rfl rfl (by decide) (fun _ => rfl)⟩

/-- Claim C8 counterexample: the embedded chat client does not POST to the
/query endpoint and its body carries no corpus_id field at all — at the
concrete input "What is AI?" the request goes to the chat route and
`hasField` finds no corpus_id, refuting the claim as stated. -/
theorem chat_request_shape_counterexample :
    (chatRequest "What is AI?").url = "http://127.0.0.1:8000/api/routes/chat"
    ∧ (chatRequest "What is AI?").url ≠ "/query"
    ∧ hasField "corpus_id" (chatRequest "What is AI?") = false := by
  refine ⟨rfl, by decide, by decide⟩

/-- Claim C8 amended: every full-corpus query request issued by the
embedded chat client is a POST to the fixed chat route whose body contains
exactly query_text (the typed input) and session_id (the fixed front-end
session id), with no corpus_id field. -/
theorem chat_request_shape (input : String) :
    (chatRequest input).method = "POST"
    ∧ (chatRequest input).url = "http://127.0.0.1:8000/api/routes/chat"
    ∧ (chatRequest input).bodyFields = [("query_text", input), ("session_id", "frontend-session")]
    ∧ hasField "corpus_id" (chatRequest input) = false := by
  refine ⟨rfl, rfl, rfl, ?_⟩
  simp [hasField, chatRequest]

/-- Witness for the amended C8 at a concrete input. -/
theorem chat_request_shape_witness :
    (chatRequest "Explain embodiment.").method = "POST"
    ∧ (chatRequest "Explain embodiment.").url = "http://127.0.0.1:8000/api/routes/chat"
    ∧ (chatRequest "Explain embodiment.").bodyFields =
        [("query_text", "Explain embodiment."), ("session_id", "frontend-session")]
    ∧ hasField "corpus_id" (chatRequest "Explain embodiment.") = false :=
  chat_request_shape "Explain embodiment."

/-- Claim C9: in WebSocketChatInterface, any submission with nonempty
trimmed input while connected and not loading evaluates the undefined
identifier prev when building newMessages, so handleSubmit throws a
ReferenceError before any chat message is sent over the WebSocket. -/
theorem ws_submit_reference_error (st : WsSubmitState)
    (h1 : jsTrim st.inputValue ≠ "") (h2 : st.isLoading = false)
    (h3 : st.wsConnected = true) :
    (wsHandleSubmitRun st).thrown = some "ReferenceError: prev is not defined"
    ∧ (wsHandleSubmitRun st).sends = 0 := by
  have hguard : ¬(jsTrim st.inputValue = "" ∨ st.isLoading = true ∨ st.wsConnected = false) := by
    simp [h1, h2, h3]
  unfold wsHandleSubmitRun
  rw [if_neg hguard]
  exact ⟨rfl, rfl⟩

/-- Witness for C9 at a concrete submit state. -/
theorem ws_submit_reference_error_witness :
    jsTrim (⟨"hello", false, true⟩ : WsSubmitState).inputValue ≠ ""
    ∧ (⟨"hello", false, true⟩ : WsSubmitState).isLoading = false
    ∧ (⟨"hello", false, true⟩ : WsSubmitState).wsConnected = true
    ∧ ((wsHandleSubmitRun ⟨"hello", false, true⟩).thrown =
        some "ReferenceError: prev is not defined"
      ∧ (wsHandleSubmitRun ⟨"hello", false, true⟩).sends = 0) :=
  ⟨by decide, rfl, rfl, ws_submit_reference_error ⟨"hello", false, true⟩ (by decide) rfl rfl⟩

/-- A nonempty string has positive length. -/
theorem length_pos_of_ne_empty (s : String) (h : s ≠ "") : 0 < s.length := by
  cases s with
  | mk data =>
    cases data with
    | nil => exact absurd rfl h
    | cons a l => simp [String.length]

/-- Claim C10 counterexample: the page selection " " is a non-empty string,
yet SmartChatInterface stores no selection for it (the trim yields the
empty string) and the effective context passed to the child stays
full_book, refuting the claim as stated. -/
theorem smart_context_whitespace_counterexample :
    (" " : String) ≠ ""
    ∧ (smartChildProps (selectedTextState (some " ")) "full_book").contextType = "full_book"
    ∧ ("full_book" : String) ≠ "selected_text" := by
  refine ⟨by decide, by decide, by decide⟩

/-- Claim C10 amended: the effective context passed to the child
ChatInterface is selected_text whenever the page selection trims to a
non-empty string, and equals the contextType prop unchanged whenever the
selection is null or trims to the empty string; the stored selected text is
the trimmed selection and is passed through to the child verbatim. -/
theorem smart_effective_context (sel sel2 ct : String) (stOpt : Option String)
    (htrim : jsTrim sel ≠ "") (hws : jsTrim sel2 = "") :
    (smartChildProps (selectedTextState (some sel)) ct).contextType = "selected_text"
    ∧ (smartChildProps (selectedTextState (some sel)) ct).selectedText = some (jsTrim sel)
    ∧ selectedTextState none = none
    ∧ (smartChildProps (selectedTextState none) ct).contextType = ct
    ∧ (smartChildProps (selectedTextState (some sel2)) ct).contextType = ct
    ∧ (smartChildProps stOpt ct).selectedText = stOpt := by
  have hstate : selectedTextState (some sel) = some (jsTrim sel) := by
    simp [selectedTextState, getSelectedText, htrim, length_pos_of_ne_empty _ htrim]
  have hstate2 : selectedTextState (some sel2) = none := by
    simp [selectedTextState, getSelectedText, hws]
  refine ⟨?_, ?_, rfl, rfl, ?_, rfl⟩
  · rw [hstate]; simp [smartChildProps, jsTruthy, htrim]
  · rw [hstate]; rfl
  · rw [hstate2]; rfl

/-- Witness for the amended C10: a selection with surrounding whitespace, a
whitespace-only selection, and a concrete stored value. -/
theorem smart_effective_context_witness :
    jsTrim " hello " ≠ ""
    ∧ jsTrim " " = ""
    ∧ ((smartChildProps (selectedTextState (some " hello ")) "full_book").contextType = "selected_text"
      ∧ (smartChildProps (selectedTextState (some " hello ")) "full_book").selectedText =
          some (jsTrim " hello ")
      ∧ selectedTextState none = none
      ∧ (smartChildProps (selectedTextState none) "full_book").contextType = "full_book"
      ∧ (smartChildProps (selectedTextState (some " ")) "full_book").contextType = "full_book"
      ∧ (smartChildProps (some "X causes Y abc") "full_book").selectedText = some "X causes Y abc") :=
  ⟨by decide, by decide,
   smart_effective_context " hello " " " "full_book" (some "X causes Y abc") (by decide) (by decide)⟩

end UnifiedBook
